import Mathlib

/-!
Shallow embedding of the ClientDashboard provider sync / command dispatch core.

Sources embedded:
- src/ui/lib/auth/scopes.ts        (Scope, hasReadAccess, hasWriteAccess)
- src/ui/lib/rate-limit.ts         (enforceRateLimit)
- src/ui/utils/retry.ts            (withRetry)
- src/ui/lib/commands.ts           (command catalog, isWriteCommand)
- src/ui/lib/kore.ts               (getAccessToken token cache, listSimsFromKore)
- src/unnamed/part_000             (POST dispatch route: target-group loop)
- src/unnamed/part_001             (POST device-sync route: fleet loop)

Modelling conventions: machine time is an abstract Int parameter (Date.now());
network and storage effects are oracles passed as functions; a JS exception is
an Except error; JS string truthiness (empty string is falsy) is modelled
explicitly where the source relies on it.  Wall-clock result fields (sentAt)
and logging side effects are elided: no claim mentions them.
-/

deriving instance DecidableEq for Except

namespace ClientDashboard

/-! ### Scopes (src/ui/lib/auth/scopes.ts) -/

structure Scope where
  accountId : String
  fleetId : Option String
  canRead : Bool
  canWrite : Bool
  canInvite : Bool
deriving DecidableEq

/-- JS truthiness of an optional-string parameter: null/undefined and the
empty string are falsy. -/
def optTruthy : Option String → Bool
  | none => false
  | some s => !(s == "")

/-- hasReadAccess (scopes.ts lines 36-46).  The source's final line is the
ternary over scope.fleetId whose two branches coincide; it is kept as
written. -/
def hasReadAccess (scopes : List Scope) (accountId : String) (fleetId : Option String) : Bool :=
  scopes.any fun scope =>
    if !(scope.accountId == accountId) then false
    else if optTruthy fleetId then scope.fleetId == fleetId && scope.canRead
    else if scope.fleetId == none then scope.canRead else scope.canRead

/-- hasWriteAccess (scopes.ts lines 48-58). -/
def hasWriteAccess (scopes : List Scope) (accountId : String) (fleetId : Option String) : Bool :=
  scopes.any fun scope =>
    if !(scope.accountId == accountId) then false
    else if optTruthy fleetId then scope.fleetId == fleetId && scope.canWrite
    else if scope.fleetId == none then scope.canWrite else scope.canWrite

/-- The dispatch route's per-account scope filter (part_000 line 106). -/
def mappedScopes (scopes : List Scope) (accountId : String) : List Scope :=
  scopes.filter fun scope => scope.accountId == accountId

/-- The dispatch route's per-device scope check (part_000 lines 161-167):
fleetMatch accepts a null-fleet (account-wide) scope or an exact fleet match,
then the required permission is read off the scope. -/
def dispatchScopeCheck (scopes : List Scope) (accountId : String) (requiresWrite : Bool)
    (simFleetId : String) : Bool :=
  (mappedScopes scopes accountId).any fun scope =>
    let fleetMatch := scope.fleetId == none || scope.fleetId == some simFleetId
    if !fleetMatch then false
    else if requiresWrite then scope.canWrite else scope.canRead

/-! ### Rate limiter (src/ui/lib/rate-limit.ts) -/

structure Bucket where
  tokens : Int
  resetAt : Int
deriving DecidableEq

/-- The module-level Map<string, Bucket>, as an insertion-ordered
association list (JS Map semantics). -/
abbrev RateStore := List (String × Bucket)

def storeGet (store : RateStore) (key : String) : Option Bucket :=
  (store.find? fun kv => kv.1 == key).map (·.2)

/-- Map.set: overwrite in place when the key is present, append otherwise. -/
def storeSet (store : RateStore) (key : String) (b : Bucket) : RateStore :=
  if (store.find? fun kv => kv.1 == key).isSome then
    store.map fun kv => if kv.1 == key then (key, b) else kv
  else
    store ++ [(key, b)]

/-- enforceRateLimit (rate-limit.ts lines 8-19); `now` stands for Date.now().
Throwing is the .error case; the successful return carries the updated
store. -/
def enforceRateLimit (store : RateStore) (key : String) (limit windowMs now : Int) :
    Except String RateStore :=
  match storeGet store key with
  | none => .ok (storeSet store key ⟨limit - 1, now + windowMs⟩)
  | some bucket =>
    if bucket.resetAt ≤ now then
      .ok (storeSet store key ⟨limit - 1, now + windowMs⟩)
    else if bucket.tokens ≤ 0 then
      .error "Rate limit exceeded"
    else
      .ok (storeSet store key { bucket with tokens := bucket.tokens - 1 })

/-! ### Retry utility (src/ui/utils/retry.ts)

The operation is an oracle from the (0-based) invocation index to its
outcome; backoff sleeps are elided (pure model).  The returned Nat counts
invocations actually performed. -/

def withRetryGo {E A : Type} (f : Nat → Except E A) (retries : Nat) (attempt : Nat) :
    Except E A × Nat :=
  match f attempt with
  | .ok v => (.ok v, attempt + 1)
  | .error e =>
    if h : attempt + 1 > retries then (.error e, attempt + 1)
    else withRetryGo f retries (attempt + 1)
termination_by retries - attempt
decreasing_by omega

/-- withRetry (retry.ts lines 5-21) with the default retries count made
explicit by the caller. -/
def withRetry {E A : Type} (f : Nat → Except E A) (retries : Nat) : Except E A × Nat :=
  withRetryGo f retries 0

/-! ### Command catalog (src/ui/lib/commands.ts) -/

def READ_COMMANDS : List String :=
  [ "accinfo", "authid", "banned", "caninfo", "cansinfo", "coords", "enginevolt",
    "get3g", "getapn", "getcfg", "getdinmode", "getgfwver", "getio", "getioparam",
    "getlog", "getnetw", "getsd", "gsminfo", "imei", "info", "iqfinfo", "lastchange",
    "modrev", "plockinfo", "snapshot", "ssl status", "tacho", "tachostatus",
    "uptime", "version", "webcoords" ]

def WRITE_COMMANDS : List String :=
  [ "accreset", "ahj-on", "ahj-off", "clear dtc", "clear obd", "connect",
    "delrecords", "dfota", "dmpfconnect", "doutreset", "econnect", "forward",
    "neconnect", "nreset", "optiver", "plock", "reset", "set3g", "setcfg",
    "setconnection", "setdinmode", "setio", "setioparam", "setiotime", "setlcv",
    "setlock", "setnetw", "setvalue", "switchip", "ussd" ]

def ALL_COMMANDS : List String := READ_COMMANDS ++ WRITE_COMMANDS ++ ["custom"]

def isWriteCommand (command : String) : Bool := WRITE_COMMANDS.contains command

def isReadCommand (command : String) : Bool := READ_COMMANDS.contains command

def isSupportedCommand (command : String) : Bool := ALL_COMMANDS.contains command

/-! ### Command dispatch route (src/unnamed/part_000)

The route body from line 57 (after validation and the rate-limit gate) is
embedded.  The database is passed as data; decryptSecret and sendSmsCommand
are oracles (decryptSecret throws on malformed or unauthenticated
ciphertext; the send oracle maps (commandToSend, simSid) to success or a
thrown message).  The model returns the results array together with the log
of provider send calls actually issued, or propagates a thrown error. -/

structure AccountRow where
  id : String
  label : String
  clientId : String
  clientSecretEncrypted : String
  oauthScope : Option String
  oauthAudience : Option String
deriving DecidableEq

structure SimRow where
  id : String
  accountId : String
  fleetId : String
  simSid : String
  iccid : String
  uniqueName : Option String
deriving DecidableEq

structure Target where
  accountId : String
  simIds : Option (List String)
  iccids : Option (List String)
  uniqueNames : Option (List String)
deriving DecidableEq

structure AuthCtx where
  userId : String
  isOwner : Bool
  scopes : List Scope
deriving DecidableEq

structure Db where
  accounts : List AccountRow
  sims : List SimRow
deriving DecidableEq

structure DispatchResult where
  accountId : String
  accountLabel : String
  simSid : String
  simId : String
  iccid : String
  status : String
  message : String
  command : Option String
  payload : Option String
deriving DecidableEq

/-- prisma.account.findMany({ where: { id: { in: accountIds } } })
(part_000 lines 57-71): rows of the table whose id occurs among the
targets, in table order. -/
def dispatchAccounts (db : Db) (targets : List Target) : List AccountRow :=
  db.accounts.filter fun a => (targets.map (·.accountId)).contains a.id

/-- new Map(accounts.map(a => [a.id, a])) lookup: the last entry for a key
wins (JS Map semantics). -/
def mapLookup (accounts : List AccountRow) (id : String) : Option AccountRow :=
  accounts.reverse.find? fun a => a.id == id

def accountMapGet (db : Db) (targets : List Target) (id : String) : Option AccountRow :=
  mapLookup (dispatchAccounts db targets) id

/-- JS `xs?.length` truthiness for the three identifier arrays
(part_000 lines 112-120). -/
def optListNonempty : Option (List String) → Bool
  | none => false
  | some l => !l.isEmpty

def targetIdentifiersPresent (t : Target) : Bool :=
  optListNonempty t.simIds || optListNonempty t.iccids || optListNonempty t.uniqueNames

def optListHas (vals : Option (List String)) (x : String) : Bool :=
  match vals with
  | none => false
  | some l => l.contains x

/-- The prisma OR clause over the supplied identifier arrays; a clause for
an absent array is not generated, and an empty array matches nothing, which
coincide. For uniqueName, a null column value matches no `in` list. -/
def simMatchesTarget (t : Target) (s : SimRow) : Bool :=
  optListHas t.simIds s.id || optListHas t.iccids s.iccid ||
    (match s.uniqueName with
     | some u => optListHas t.uniqueNames u
     | none => false)

/-- prisma.sim.findMany({ where: { accountId, OR: identifiers } })
(part_000 lines 135-140), in table order. -/
def resolveSims (db : Db) (accountId : String) (t : Target) : List SimRow :=
  db.sims.filter fun s => s.accountId == accountId && simMatchesTarget t s

/-- The string sent as the device command (part_000 line 184): the trimmed
custom text for "custom", the command name otherwise; the payload text is
computed identically (line 185). -/
def commandToSend (command : String) (text : Option String) : String :=
  if command == "custom" then (text.getD "").trim else command

/-- Per-device processing (part_000 lines 159-247): scope check for
non-owners, then the provider send; returns the pushed result and the
(commandToSend, simSid) pair when a send was attempted. -/
def processSim (ctx : AuthCtx) (send : String → String → Except String Unit)
    (account : AccountRow) (requiresWrite : Bool) (cmdSend payloadText : String)
    (sim : SimRow) : DispatchResult × Option (String × String) :=
  if !ctx.isOwner &&
      !(dispatchScopeCheck ctx.scopes account.id requiresWrite sim.fleetId) then
    (⟨account.id, account.label, sim.simSid, sim.id, sim.iccid, "forbidden",
      "Write scope missing in Account " ++ account.label, none, none⟩, none)
  else
    match send cmdSend sim.simSid with
    | .ok _ =>
      (⟨account.id, account.label, sim.simSid, sim.id, sim.iccid, "queued", "",
        some cmdSend, some payloadText⟩, some (cmdSend, sim.simSid))
    | .error msg =>
      (⟨account.id, account.label, sim.simSid, sim.id, sim.iccid, "error", msg,
        some cmdSend, some payloadText⟩, some (cmdSend, sim.simSid))

/-- One iteration of the target-group loop (part_000 lines 88-248).
decryptSecret (line 103) is called outside any per-group try, so its
exception propagates as the .error case and aborts the whole dispatch. -/
def dispatchGroup (db : Db) (ctx : AuthCtx)
    (decryptSecret : String → Except String String)
    (send : String → String → Except String Unit)
    (command : String) (text : Option String) (targets : List Target)
    (t : Target) : Except String (List DispatchResult × List (String × String)) :=
  match accountMapGet db targets t.accountId with
  | none =>
    .ok ([⟨t.accountId, "Unknown", "", "", "", "error", "Account not found", none, none⟩], [])
  | some account =>
    match decryptSecret account.clientSecretEncrypted with
    | .error e => .error e
    | .ok _secret =>
      if !targetIdentifiersPresent t then
        .ok ([⟨account.id, account.label, "", "", "", "error",
              "No target identifiers supplied", none, none⟩], [])
      else
        let sims := resolveSims db account.id t
        if sims.isEmpty then
          .ok ([⟨account.id, account.label, "", "", "", "error",
                "No SIMs resolved for target", none, none⟩], [])
        else
          let requiresWrite := isWriteCommand command
          let cmdSend := commandToSend command text
          let per := sims.map (processSim ctx send account requiresWrite cmdSend cmdSend)
          .ok (per.map (·.1), per.filterMap (·.2))

/-- The post-validation dispatch loop over target groups (part_000 lines
88-250): results accumulate across groups; a thrown error (only decryption
here) aborts everything.  `targets` is the full batch (it feeds the
account map); the last argument is the suffix still to process. -/
def dispatchGo (db : Db) (ctx : AuthCtx)
    (decryptSecret : String → Except String String)
    (send : String → String → Except String Unit)
    (command : String) (text : Option String) (targets : List Target) :
    List Target → Except String (List DispatchResult × List (String × String))
  | [] => .ok ([], [])
  | t :: rest =>
    match dispatchGroup db ctx decryptSecret send command text targets t with
    | .error e => .error e
    | .ok r =>
      match dispatchGo db ctx decryptSecret send command text targets rest with
      | .error e => .error e
      | .ok r' => .ok (r.1 ++ r'.1, r.2 ++ r'.2)

def dispatchTargets (db : Db) (ctx : AuthCtx)
    (decryptSecret : String → Except String String)
    (send : String → String → Except String Unit)
    (command : String) (text : Option String) (targets : List Target) :
    Except String (List DispatchResult × List (String × String)) :=
  dispatchGo db ctx decryptSecret send command text targets targets

/-- The entry count C2 predicts for one target group: the number of devices
it resolves, or one error entry when it resolves none (unknown account, no
identifiers, or no matching sims). -/
def expectedEntries (db : Db) (targets : List Target) (t : Target) : Nat :=
  match accountMapGet db targets t.accountId with
  | none => 1
  | some account =>
    if !targetIdentifiersPresent t then 1
    else
      let sims := resolveSims db account.id t
      if sims.isEmpty then 1 else sims.length

/-! ### Provider client: device listing (src/ui/lib/kore.ts lines 163-252)

koreFetch is an oracle from the request path to either a thrown
KoreHttpError status or a parsed SimListResponse; token acquisition and the
retry wrapper sit behind that oracle (a failure there surfaces as the
thrown error of the page fetch).  The pagination while-loop can diverge for
an oracle that keeps producing fresh next-page URLs, so it runs on fuel;
fuel exhaustion is a distinguished outcome with no source counterpart. -/

/-- A raw provider sim record (Record<string, unknown>): the fields
normalizeSim consults, absent-or-null as none. -/
structure RawSim where
  sid : Option String := none
  id : Option String := none
  iccid : Option String := none
  sim_iccid : Option String := none
  unique_name : Option String := none
  uniqueName : Option String := none
  fleet_sid : Option String := none
  fleetSid : Option String := none
  fleet_id : Option String := none
  fleet_name : Option String := none
  fleetName : Option String := none
  status : Option String := none
  last_seen_at : Option String := none
  lastSeenAt : Option String := none
deriving DecidableEq

structure KoreSim where
  sid : String
  iccid : String
  uniqueName : Option String
  status : String
  fleetSid : String
  fleetName : Option String
  lastSeenAt : Option String
deriving DecidableEq

/-- JS `raw ? String(raw) : null` on an optional string: the empty string
collapses to null. -/
def jsTruthyStr : Option String → Option String
  | none => none
  | some s => if s == "" then none else some s

/-- normalizeSim (kore.ts lines 174-191). -/
def normalizeSim (input : RawSim) : KoreSim :=
  { sid := (input.sid.or input.id).getD ""
    iccid := (input.iccid.or input.sim_iccid).getD ""
    uniqueName := jsTruthyStr (input.unique_name.or input.uniqueName)
    status := input.status.getD "unknown"
    fleetSid := ((input.fleet_sid.or input.fleetSid).or input.fleet_id).getD ""
    fleetName := jsTruthyStr (input.fleet_name.or input.fleetName)
    lastSeenAt := jsTruthyStr (input.last_seen_at.or input.lastSeenAt) }

structure SimListResponse where
  sims : Option (List RawSim) := none
  data : Option (List RawSim) := none
  next_page_url : Option String := none
  nextPageUrl : Option String := none
deriving DecidableEq

def hexDigits : List Char :=
  ['0', '1', '2', '3', '4', '5', '6', '7', '8', '9', 'A', 'B', 'C', 'D', 'E', 'F']

def byteHex (n : Nat) : String :=
  String.mk [hexDigits.getD (n / 16 % 16) '0', hexDigits.getD (n % 16) '0']

/-- A character encodeURIComponent leaves as-is: alphanumerics and
- _ . ! ~ * ' ( ). -/
def uriUnreserved (c : Char) : Bool :=
  c.isAlphanum || c == '-' || c == '_' || c == '.' || c == '!' || c == '~' ||
    c == '*' || c.toNat == 39 || c == '(' || c == ')'

def encodeURIComponent (s : String) : String :=
  String.join <| s.toList.map fun c =>
    if uriUnreserved c then String.mk [c]
    else String.join (((String.mk [c]).toUTF8.toList).map fun b => "%" ++ byteHex b.toNat)

/-- stripBase (kore.ts lines 293-299); the configured base URL is a
parameter. -/
def stripBase (base url : String) : String :=
  if base.isPrefixOf url then url.drop base.length else url

/-- The ordered candidate endpoint paths (kore.ts lines 214-221). -/
def simsCandidates (fleetSid : String) : List String :=
  [ "/Fleets/" ++ encodeURIComponent fleetSid ++ "/Sims?PageSize=500"
  , "/Sims?FleetSid=" ++ encodeURIComponent fleetSid ++ "&PageSize=500"
  , "/Sims?Fleet=" ++ encodeURIComponent fleetSid ++ "&PageSize=500"
  , "/fleets/" ++ encodeURIComponent fleetSid ++ "/sims?PageSize=500"
  , "/sims?FleetSid=" ++ encodeURIComponent fleetSid ++ "&PageSize=500"
  , "/sims?fleetSid=" ++ encodeURIComponent fleetSid ++ "&PageSize=500" ]

inductive CandOutcome : Type
  | completed : CandOutcome
  | threw (status : Nat) : CandOutcome
  | fuelOut : CandOutcome
deriving DecidableEq

/-- The inner pagination while-loop of one candidate (kore.ts lines
224-241): sims accumulate into the outer list passed in; returns the new
outer list, the candidate's fetchedAny flag, the paths requested during
this run, and how the loop ended. -/
def runPages (fetch : String → Except Nat SimListResponse) (base fleetSid : String) :
    Nat → Option String → List String → List KoreSim → Bool →
    List KoreSim × Bool × List String × CandOutcome
  | _fuel, none, _visited, sims, fetchedAny => (sims, fetchedAny, [], .completed)
  | fuel, some p, visited, sims, fetchedAny =>
    if p == "" then (sims, fetchedAny, [], .completed)
    else if visited.contains p then (sims, fetchedAny, [], .completed)
    else
      match fuel with
      | 0 => (sims, fetchedAny, [], .fuelOut)
      | fuel' + 1 =>
        match fetch p with
        | .error status => (sims, fetchedAny, [p], .threw status)
        | .ok resp =>
          let items := (resp.sims.or resp.data).getD []
          let news := items.filterMap fun raw =>
            let sim := normalizeSim raw
            if sim.sid == "" then none else some { sim with fleetSid := fleetSid }
          let nextUrl := jsTruthyStr (resp.next_page_url.or resp.nextPageUrl)
          let np := nextUrl.map (stripBase base)
          let r :=
            runPages fetch base fleetSid fuel' np (visited ++ [p]) (sims ++ news)
              (fetchedAny || !news.isEmpty)
          (r.1, r.2.1, p :: r.2.2.1, r.2.2.2)

inductive ListSimsOut : Type
  | ok (sims : List KoreSim) : ListSimsOut
  | err (status : Nat) : ListSimsOut
  | fuelOut : ListSimsOut
deriving DecidableEq

/-- The candidate loop of listSimsFromKore (kore.ts lines 223-250): a
candidate whose run throws 404 or 400 is skipped; any other thrown status
propagates; a candidate that completes having pushed at least one sim
breaks the loop; otherwise the accumulated sims carry over to the next
candidate. -/
def runCandidates (fetch : String → Except Nat SimListResponse) (base fleetSid : String)
    (fuel : Nat) : List String → List KoreSim → ListSimsOut × List String
  | [], sims => (.ok sims, [])
  | c :: cs, sims =>
    match runPages fetch base fleetSid fuel (some c) [] sims false with
    | (sims', fetchedAny, ps, .completed) =>
      if fetchedAny then (.ok sims', ps)
      else
        let r := runCandidates fetch base fleetSid fuel cs sims'
        (r.1, ps ++ r.2)
    | (sims', _, ps, .threw status) =>
      if status == 404 || status == 400 then
        let r := runCandidates fetch base fleetSid fuel cs sims'
        (r.1, ps ++ r.2)
      else (.err status, ps)
    | (_, _, ps, .fuelOut) => (.fuelOut, ps)

/-- listSimsFromKore (kore.ts lines 211-252), also reporting every path
requested. -/
def listSimsFromKore (fetch : String → Except Nat SimListResponse) (base fleetSid : String)
    (fuel : Nat) : ListSimsOut × List String :=
  runCandidates fetch base fleetSid fuel (simsCandidates fleetSid) []

/-! ### Token cache (src/ui/lib/kore.ts lines 37-114)

One sequential call to getAccessToken for a single tenant key, after the
underlying fetch promise (withRetry around fetchWithTimeout) has settled.
The fetch outcome is an oracle: a transport-level rejection that exhausted
the retry budget, a non-2xx HTTP response, or a success body.  The stored
in-flight entry is the settled outcome of the chained promise
(promise.then(handler)); on a rejection the handler never runs, so the
entry holds the rejection itself.  The model returns the call's result, the
state after the call settles, and whether a fresh token request was
issued. -/

inductive TokenErr : Type
  | transport (msg : String) : TokenErr
  | http (status : Nat) : TokenErr
deriving DecidableEq

inductive TokenFetch : Type
  | rejected (msg : String) : TokenFetch
  | httpErr (status : Nat) : TokenFetch
  | success (token : String) (expiresIn : Option Int) : TokenFetch
deriving DecidableEq

structure TokenState where
  cache : Option (String × Int)
  inFlight : Option (Except TokenErr String)
deriving DecidableEq

def getAccessToken (st : TokenState) (now : Int) (fetched : TokenFetch) :
    Except TokenErr String × TokenState × Bool :=
  match st.cache with
  | some (token, expiresAt) =>
    if expiresAt > now + 10000 then (.ok token, st, false)
    else getAccessTokenFetch st now fetched
  | none => getAccessTokenFetch st now fetched
where
  getAccessTokenFetch (st : TokenState) (now : Int) (fetched : TokenFetch) :
      Except TokenErr String × TokenState × Bool :=
    match st.inFlight with
    | some outcome => (outcome, st, false)
    | none =>
      match fetched with
      | .rejected msg =>
        (.error (.transport msg), { st with inFlight := some (.error (.transport msg)) }, true)
      | .httpErr status =>
        (.error (.http status), { st with inFlight := none }, true)
      | .success token expiresIn =>
        let expires := expiresIn.getD 3600
        (.ok token,
         { cache := some (token, now + expires * 1000), inFlight := none }, true)

/-! ### Device sync route (src/unnamed/part_001 lines 56-150)

The per-account / per-fleet processing after the account-id resolution.
decryptSecret and the provider listing (listSimsFromKore for this account's
credentials and a fleet externalRef) are oracles; prisma upserts are
recorded as data.  sequentialProcess wraps every fleet handler in withRetry
(4 retries); with a deterministic oracle each attempt repeats the first
outcome, which the withRetry model makes exact. -/

structure FleetRow where
  id : String
  externalRef : String
deriving DecidableEq

structure SyncAccount where
  id : String
  label : String
  clientId : String
  clientSecretEncrypted : String
  fleets : List FleetRow
deriving DecidableEq

inductive ListErr : Type
  | koreHttp (status : Nat) (msg : String) : ListErr
  | other (msg : String) : ListErr
deriving DecidableEq

/-- `err instanceof Error ? err.message : "sync failed"` — both modelled
error shapes carry a message. -/
def listErrMessage : ListErr → String
  | .koreHttp _ msg => msg
  | .other msg => msg

structure SyncEntry where
  accountId : String
  fleetId : Option String
  synced : Option Nat
  error : Option String
deriving DecidableEq

structure UpsertRec where
  accountId : String
  fleetId : String
  sim : KoreSim
deriving DecidableEq

/-- The target-fleet filter (part_001 lines 76-87): the fleetIds body
filter, then owner bypass, then the caller's readable scopes for the
account (account-wide or exact fleet). -/
def targetFleets (ctx : AuthCtx) (fleetFilter : Option (List String))
    (account : SyncAccount) : List FleetRow :=
  let accountScope := ctx.scopes.filter fun s => s.accountId == account.id && s.canRead
  account.fleets.filter fun fleet =>
    if (match fleetFilter with
        | some l => !l.isEmpty && !l.contains fleet.id
        | none => false) then false
    else if ctx.isOwner then true
    else accountScope.any fun scope => scope.fleetId == none || scope.fleetId == some fleet.id

/-- `err instanceof KoreHttpError && err.status === 404` (part_001 line
103). -/
def isKore404 : ListErr → Bool
  | .koreHttp status _ => status == 404
  | .other _ => false

/-- One attempt of the per-fleet handler (part_001 lines 89-143): a 404
KoreHttpError from the listing skips the fleet (no summary entry, no
upserts); any other error is rethrown; success upserts every sim and pushes
one summary entry with the synced count. -/
def syncFleetAttempt (listSims : String → String → Except ListErr (List KoreSim))
    (account : SyncAccount) (fleet : FleetRow) :
    Except ListErr (List SyncEntry × List UpsertRec) :=
  match listSims account.clientId fleet.externalRef with
  | .error e => if isKore404 e then .ok ([], []) else .error e
  | .ok sims =>
    .ok ([⟨account.id, some fleet.id, some sims.length, none⟩],
         sims.map fun sim => ⟨account.id, fleet.id, sim⟩)

/-- The fleet handler as run by sequentialProcess (db-utils.ts): wrapped in
withRetry with 4 retries; the deterministic listing oracle makes every
attempt identical. -/
def syncFleet (listSims : String → String → Except ListErr (List KoreSim))
    (account : SyncAccount) (fleet : FleetRow) :
    Except ListErr (List SyncEntry × List UpsertRec) :=
  (withRetry (fun _ => syncFleetAttempt listSims account fleet) 4).1

/-- The sequentialProcess loop over an account's target fleets: summary
entries and upserts of earlier fleets survive a later fleet's thrown error,
which aborts the remaining fleets and propagates. -/
def syncFleetList (listSims : String → String → Except ListErr (List KoreSim))
    (account : SyncAccount) :
    List FleetRow → List SyncEntry × List UpsertRec × Option ListErr
  | [] => ([], [], none)
  | fleet :: rest =>
    match syncFleet listSims account fleet with
    | .error e => ([], [], some e)
    | .ok r =>
      let r' := syncFleetList listSims account rest
      (r.1 ++ r'.1, r.2 ++ r'.2.1, r'.2.2)

/-- The per-account handler (part_001 lines 73-148): decrypt the secret,
process the target fleets, and catch any thrown error into one error
summary entry for the account. -/
def syncAccount (decryptSecret : String → Except String String)
    (listSims : String → String → Except ListErr (List KoreSim))
    (ctx : AuthCtx) (fleetFilter : Option (List String))
    (account : SyncAccount) : List SyncEntry × List UpsertRec :=
  match decryptSecret account.clientSecretEncrypted with
  | .error msg => ([⟨account.id, none, none, some msg⟩], [])
  | .ok _secret =>
    let r := syncFleetList listSims account (targetFleets ctx fleetFilter account)
    match r.2.2 with
    | none => (r.1, r.2.1)
    | some e => (r.1 ++ [⟨account.id, none, none, some (listErrMessage e)⟩], r.2.1)

/-- The sequentialProcess loop over accounts (part_001 lines 73-148); the
account handler catches internally and never throws, so the loop always
reaches every account. -/
def syncDevices (decryptSecret : String → Except String String)
    (listSims : String → String → Except ListErr (List KoreSim))
    (ctx : AuthCtx) (fleetFilter : Option (List String)) :
    List SyncAccount → List SyncEntry × List UpsertRec
  | [] => ([], [])
  | account :: rest =>
    let sa := syncAccount decryptSecret listSims ctx fleetFilter account
    let sd := syncDevices decryptSecret listSims ctx fleetFilter rest
    (sa.1 ++ sd.1, sa.2 ++ sd.2)

/-! ### Concrete fixtures used by closed theorems and witnesses -/

/-- A provider sim record carrying only an sid and an iccid. -/
def rawSimA : RawSim := { sid := some "S1", iccid := some "89001" }

/-- What the pagination loop pushes for rawSimA under fleet FL1. -/
def koreSimA : KoreSim :=
  { sid := "S1", iccid := "89001", uniqueName := none, status := "unknown"
    fleetSid := "FL1", fleetName := none, lastSeenAt := none }

/-- C10 oracle: the first candidate's first page yields one device and
points at a second page that answers 404; the second candidate yields the
same device again. -/
def c10fetch : String → Except Nat SimListResponse := fun p =>
  if p == "/Fleets/FL1/Sims?PageSize=500" then
    .ok { data := some [rawSimA], next_page_url := some "/page2" }
  else if p == "/page2" then .error 404
  else if p == "/Sims?FleetSid=FL1&PageSize=500" then
    .ok { sims := some [rawSimA] }
  else .error 500

def rawSim1 : RawSim := { sid := some "S1", iccid := some "89001" }
def rawSim2 : RawSim := { sid := some "S2", iccid := some "89002" }
def rawSim3 : RawSim := { sid := some "S3", iccid := some "89003" }

def koreSim1 : KoreSim :=
  { sid := "S1", iccid := "89001", uniqueName := none, status := "unknown"
    fleetSid := "FL1", fleetName := none, lastSeenAt := none }
def koreSim2 : KoreSim :=
  { sid := "S2", iccid := "89002", uniqueName := none, status := "unknown"
    fleetSid := "FL1", fleetName := none, lastSeenAt := none }
def koreSim3 : KoreSim :=
  { sid := "S3", iccid := "89003", uniqueName := none, status := "unknown"
    fleetSid := "FL1", fleetName := none, lastSeenAt := none }

/-- C5 oracle: the first four candidate endpoints answer 404, the fifth
returns a single page of three devices, the sixth would answer 500 were it
ever queried. -/
def c5fetch : String → Except Nat SimListResponse := fun p =>
  if p == "/sims?FleetSid=FL1&PageSize=500" then
    .ok { sims := some [rawSim1, rawSim2, rawSim3] }
  else if p == "/sims?fleetSid=FL1&PageSize=500" then .error 500
  else .error 404

/-- C2 counterexample fixture: the first group's account decrypts to a
malformed-ciphertext error, the second group resolves one device. -/
def c2acctBad : AccountRow := ⟨"A1", "Acme", "cid1", "enc1", none, none⟩

def c2acctGood : AccountRow := ⟨"A2", "Beta", "cid2", "enc2", none, none⟩

def c2sim : SimRow := ⟨"s1", "A2", "fl1", "SS1", "8901", none⟩

def c2db : Db := ⟨[c2acctBad, c2acctGood], [c2sim]⟩

def c2decrypt : String → Except String String :=
  fun s => if s == "enc1" then .error "Encrypted payload is malformed" else .ok "secret"

def okSend : String → String → Except String Unit := fun _ _ => .ok ()

def okDecrypt : String → Except String String := fun _ => .ok "secret"

def c2targets : List Target :=
  [⟨"A1", some ["zzz"], none, none⟩, ⟨"A2", some ["s1"], none, none⟩]

/-- C3 fixture: one account, one device in fleet fl1, a non-owner caller
whose single scope is fleet-scoped on fl1 with canRead only. -/
def c3acct : AccountRow := ⟨"A1", "Acme", "cid1", "enc", none, none⟩

def c3sim : SimRow := ⟨"s1", "A1", "fl1", "SS1", "8902", none⟩

def c3db : Db := ⟨[c3acct], [c3sim]⟩

def c3scope : Scope := ⟨"A1", some "fl1", true, false, false⟩

def c3ctx : AuthCtx := ⟨"u1", false, [c3scope]⟩

def c3t : Target := ⟨"A1", some ["s1"], none, none⟩

/-- C8 fixture fleets and accounts. -/
def c8fleetOk : FleetRow := ⟨"f1", "EXT1"⟩

def c8fleetGone : FleetRow := ⟨"f2", "EXTGONE"⟩

def c8fleetBad : FleetRow := ⟨"f3", "EXTBAD"⟩

def c8acct : SyncAccount := ⟨"A1", "Acme", "cid1", "enc", [c8fleetBad]⟩

def c8acct2 : SyncAccount := ⟨"A2", "Beta", "cid2", "enc", [c8fleetOk]⟩

def c8list : String → String → Except ListErr (List KoreSim) := fun _ ext =>
  if ext == "EXT1" then .ok [koreSimA]
  else if ext == "EXTGONE" then .error (.koreHttp 404 "not found")
  else .error (.koreHttp 500 "server error")

def c8ctx : AuthCtx := ⟨"u1", true, []⟩

/-! ## Helper lemmas -/

theorem find?_append_absent (store : RateStore) (key : String) (b : Bucket)
    (h : (store.find? fun kv => kv.1 == key) = none) :
    ((store ++ [(key, b)]).find? fun kv => kv.1 == key) = some (key, b) := by
  induction store with
  | nil => simp [List.find?_cons]
  | cons kv rest ih =>
    simp only [List.find?_cons] at h
    cases hk : (kv.1 == key) with
    | true => simp [hk] at h
    | false =>
      simp only [hk] at h
      simp only [List.cons_append]
      rw [List.find?_cons_of_neg _ (by simp [hk])]
      exact ih h

theorem find?_map_present (store : RateStore) (key : String) (b : Bucket)
    (h : (store.find? fun kv => kv.1 == key).isSome) :
    ((store.map fun kv => if kv.1 == key then (key, b) else kv).find?
      fun kv => kv.1 == key) = some (key, b) := by
  induction store with
  | nil => simp [List.find?] at h
  | cons kv rest ih =>
    simp only [List.map_cons]
    cases hk : (kv.1 == key) with
    | true =>
      simp only [hk, if_true]
      simp [List.find?_cons]
    | false =>
      simp only [hk, Bool.false_eq_true, if_false]
      rw [List.find?_cons_of_neg _ (by simp [hk])]
      apply ih
      simp only [List.find?_cons, hk] at h
      exact h

theorem storeGet_storeSet_self (store : RateStore) (key : String) (b : Bucket) :
    storeGet (storeSet store key b) key = some b := by
  unfold storeGet storeSet
  cases h : (store.find? fun kv => kv.1 == key) with
  | some kv =>
    rw [if_pos (by simp [h]), find?_map_present store key b (by simp [h])]
    rfl
  | none =>
    rw [if_neg (by simp [h]), find?_append_absent store key b h]
    rfl

theorem withRetryGo_allFail {E A : Type} (f : Nat → Except E A) (errs : Nat → E)
    (hf : ∀ n, f n = .error (errs n)) (retries : Nat) :
    ∀ k attempt, retries - attempt = k → attempt ≤ retries →
      withRetryGo f retries attempt = (.error (errs retries), retries + 1) := by
  intro k
  induction k with
  | zero =>
    intro attempt hk hle
    have heq : attempt = retries := by omega
    subst heq
    rw [withRetryGo, hf]
    simp
  | succ k ih =>
    intro attempt hk hle
    rw [withRetryGo, hf]
    have hlt : ¬(attempt + 1 > retries) := by omega
    simp only [hlt, dite_false, dif_neg]
    exact ih (attempt + 1) (by omega) (by omega)

theorem hasReadAccess_eq_mapped (scopes : List Scope) (a : String) (fleetId : Option String) :
    hasReadAccess scopes a fleetId = (mappedScopes scopes a).any fun scope =>
      if optTruthy fleetId then scope.fleetId == fleetId && scope.canRead
      else if scope.fleetId == none then scope.canRead else scope.canRead := by
  unfold hasReadAccess mappedScopes
  rw [List.any_filter]
  congr 1
  funext scope
  cases hc : (scope.accountId == a) <;> simp [hc]

theorem hasWriteAccess_eq_mapped (scopes : List Scope) (a : String) (fleetId : Option String) :
    hasWriteAccess scopes a fleetId = (mappedScopes scopes a).any fun scope =>
      if optTruthy fleetId then scope.fleetId == fleetId && scope.canWrite
      else if scope.fleetId == none then scope.canWrite else scope.canWrite := by
  unfold hasWriteAccess mappedScopes
  rw [List.any_filter]
  congr 1
  funext scope
  cases hc : (scope.accountId == a) <;> simp [hc]

theorem dispatchGroup_ok_length (db : Db) (ctx : AuthCtx)
    (decrypt : String → Except String String) (send : String → String → Except String Unit)
    (command : String) (text : Option String) (targets : List Target) (t : Target)
    (hd : ∀ a, accountMapGet db targets t.accountId = some a →
          ∃ s, decrypt a.clientSecretEncrypted = .ok s) :
    ∃ rs sent, dispatchGroup db ctx decrypt send command text targets t = .ok (rs, sent) ∧
      rs.length = expectedEntries db targets t := by
  unfold dispatchGroup expectedEntries
  cases ha : accountMapGet db targets t.accountId with
  | none => exact ⟨_, _, rfl, rfl⟩
  | some account =>
    dsimp only
    obtain ⟨s, hs⟩ := hd account ha
    rw [hs]
    dsimp only
    by_cases hip : targetIdentifiersPresent t
    · rw [hip]
      by_cases hempty : (resolveSims db account.id t).isEmpty
      · simp only [hempty, Bool.not_true, Bool.false_eq_true, if_false, if_true]
        exact ⟨_, _, rfl, rfl⟩
      · have he : (resolveSims db account.id t).isEmpty = false := by simpa using hempty
        simp only [he, Bool.not_true, Bool.false_eq_true, if_false]
        refine ⟨_, _, rfl, ?_⟩
        simp
    · have hip' : targetIdentifiersPresent t = false := by simpa using hip
      simp only [hip', Bool.not_false, if_true]
      exact ⟨_, _, rfl, rfl⟩

theorem dispatchGo_ok_length (db : Db) (ctx : AuthCtx)
    (decrypt : String → Except String String) (send : String → String → Except String Unit)
    (command : String) (text : Option String) (targets : List Target) :
    ∀ l : List Target,
      (∀ t ∈ l, ∀ a, accountMapGet db targets t.accountId = some a →
        ∃ s, decrypt a.clientSecretEncrypted = .ok s) →
      ∃ rs sent, dispatchGo db ctx decrypt send command text targets l = .ok (rs, sent) ∧
        rs.length = (l.map (expectedEntries db targets)).sum := by
  intro l
  induction l with
  | nil => intro _; exact ⟨[], [], rfl, rfl⟩
  | cons t rest ih =>
    intro hd
    obtain ⟨rs, sent, hgr, hlen⟩ :=
      dispatchGroup_ok_length db ctx decrypt send command text targets t
        (hd t (List.mem_cons_self t rest))
    obtain ⟨rs', sent', hgo, hlen'⟩ := ih fun u hu => hd u (List.mem_cons_of_mem t hu)
    refine ⟨rs ++ rs', sent ++ sent', ?_, ?_⟩
    · unfold dispatchGo
      rw [hgr, hgo]
    · simp [hlen, hlen']

theorem contains_isEmpty {l : List String} {x : String} (h : l.contains x = true) :
    l.isEmpty = false := by
  cases l with
  | nil => simp at h
  | cons a as => rfl

theorem identifiersPresent_of_match (t : Target) (s : SimRow)
    (h : simMatchesTarget t s = true) : targetIdentifiersPresent t = true := by
  unfold simMatchesTarget at h
  unfold targetIdentifiersPresent
  simp only [Bool.or_eq_true] at h ⊢
  rcases h with (h | h) | h
  · left; left
    unfold optListHas at h
    unfold optListNonempty
    rcases hs : t.simIds with _ | l
    · rw [hs] at h; simp at h
    · rw [hs] at h
      dsimp only at h ⊢
      rw [contains_isEmpty h]
      rfl
  · left; right
    unfold optListHas at h
    unfold optListNonempty
    rcases hs : t.iccids with _ | l
    · rw [hs] at h; simp at h
    · rw [hs] at h
      dsimp only at h ⊢
      rw [contains_isEmpty h]
      rfl
  · right
    rcases hu : s.uniqueName with _ | u
    · rw [hu] at h; simp at h
    · rw [hu] at h
      dsimp only at h
      unfold optListHas at h
      unfold optListNonempty
      rcases hs : t.uniqueNames with _ | l
      · rw [hs] at h; simp at h
      · rw [hs] at h
        dsimp only at h ⊢
        rw [contains_isEmpty h]
        rfl

theorem sim_mem_of_resolve (db : Db) (aid : String) (t : Target) (sim : SimRow)
    (h : resolveSims db aid t = [sim]) : simMatchesTarget t sim = true := by
  have hmem : sim ∈ resolveSims db aid t := by rw [h]; exact List.mem_singleton_self sim
  unfold resolveSims at hmem
  have := (List.mem_filter.mp hmem).2
  simp only [Bool.and_eq_true] at this
  exact this.2

theorem processSim_forbidden (ctx : AuthCtx) (send : String → String → Except String Unit)
    (account : AccountRow) (requiresWrite : Bool) (cs pt : String) (sim : SimRow)
    (ho : ctx.isOwner = false)
    (hcheck : dispatchScopeCheck ctx.scopes account.id requiresWrite sim.fleetId = false) :
    processSim ctx send account requiresWrite cs pt sim =
      (⟨account.id, account.label, sim.simSid, sim.id, sim.iccid, "forbidden",
        "Write scope missing in Account " ++ account.label, none, none⟩, none) := by
  unfold processSim
  rw [ho, hcheck]
  rfl

theorem processSim_queued (ctx : AuthCtx) (send : String → String → Except String Unit)
    (account : AccountRow) (requiresWrite : Bool) (cs pt : String) (sim : SimRow)
    (hallow : ctx.isOwner = true ∨
      dispatchScopeCheck ctx.scopes account.id requiresWrite sim.fleetId = true)
    (hsend : send cs sim.simSid = .ok ()) :
    processSim ctx send account requiresWrite cs pt sim =
      (⟨account.id, account.label, sim.simSid, sim.id, sim.iccid, "queued", "",
        some cs, some pt⟩, some (cs, sim.simSid)) := by
  unfold processSim
  rcases hallow with ho | hc
  · rw [ho]
    simp only [Bool.not_true, Bool.false_and, Bool.false_eq_true, if_false, hsend]
  · rw [hc]
    simp only [Bool.not_true, Bool.and_false, Bool.false_eq_true, if_false, hsend]

theorem dispatchGroup_resolved (db : Db) (ctx : AuthCtx)
    (decrypt : String → Except String String) (send : String → String → Except String Unit)
    (command : String) (text : Option String) (targets : List Target) (t : Target)
    (account : AccountRow) (secret : String)
    (ha : accountMapGet db targets t.accountId = some account)
    (hde : decrypt account.clientSecretEncrypted = .ok secret)
    (hip : targetIdentifiersPresent t = true)
    (hne : (resolveSims db account.id t).isEmpty = false) :
    dispatchGroup db ctx decrypt send command text targets t =
      .ok ((((resolveSims db account.id t).map
              (processSim ctx send account (isWriteCommand command)
                (commandToSend command text) (commandToSend command text))).map (·.1)),
           (((resolveSims db account.id t).map
              (processSim ctx send account (isWriteCommand command)
                (commandToSend command text) (commandToSend command text))).filterMap (·.2))) := by
  unfold dispatchGroup
  rw [ha]
  dsimp only
  rw [hde]
  dsimp only
  rw [hip]
  simp only [Bool.not_true, Bool.false_eq_true, if_false]
  rw [hne]
  rfl

theorem read_not_write (cmd : String) (h : isReadCommand cmd = true) :
    isWriteCommand cmd = false := by
  unfold isReadCommand at h
  unfold isWriteCommand
  have hd : ∀ x ∈ READ_COMMANDS, x ∉ WRITE_COMMANDS := by decide
  have hmem : cmd ∈ READ_COMMANDS := by simpa using h
  have := hd cmd hmem
  rw [← Bool.not_eq_true]
  intro hc
  exact this (by simpa using hc)

theorem read_not_custom (cmd : String) (h : isReadCommand cmd = true) :
    (cmd == "custom") = false := by
  unfold isReadCommand at h
  have hmem : cmd ∈ READ_COMMANDS := by simpa using h
  have hnc : cmd ≠ "custom" := by
    intro hc
    subst hc
    revert hmem
    decide
  simp [hnc]

theorem withRetry_const_ok {E A : Type} (x : A) (n : Nat) :
    withRetry (fun _ => (.ok x : Except E A)) n = (.ok x, 1) := by
  simp [withRetry, withRetryGo]

theorem syncFleet_skip (listSims : String → String → Except ListErr (List KoreSim))
    (account : SyncAccount) (fleet : FleetRow) (e : ListErr)
    (h : listSims account.clientId fleet.externalRef = .error e)
    (h404 : isKore404 e = true) :
    syncFleet listSims account fleet = .ok ([], []) := by
  unfold syncFleet
  have hatt : (fun _ : Nat => syncFleetAttempt listSims account fleet) =
      fun _ => .ok ([], []) := by
    funext _
    unfold syncFleetAttempt
    rw [h]
    dsimp only
    rw [h404]
    rfl
  rw [hatt, withRetry_const_ok]

theorem syncFleet_propagate (listSims : String → String → Except ListErr (List KoreSim))
    (account : SyncAccount) (fleet : FleetRow) (e : ListErr)
    (h : listSims account.clientId fleet.externalRef = .error e)
    (h404 : isKore404 e = false) :
    syncFleet listSims account fleet = .error e := by
  unfold syncFleet
  have hatt : (fun _ : Nat => syncFleetAttempt listSims account fleet) =
      fun _ => .error e := by
    funext _
    unfold syncFleetAttempt
    rw [h]
    dsimp only
    rw [h404]
    rfl
  rw [hatt]
  unfold withRetry
  rw [withRetryGo_allFail (fun _ => .error e) (fun _ => e) (fun _ => rfl) 4 4 0 rfl (by omega)]

theorem syncFleetList_cons (listSims : String → String → Except ListErr (List KoreSim))
    (account : SyncAccount) (fleet : FleetRow) (rest : List FleetRow) :
    syncFleetList listSims account (fleet :: rest) =
      match syncFleet listSims account fleet with
      | .error e => ([], [], some e)
      | .ok r =>
        let r' := syncFleetList listSims account rest
        (r.1 ++ r'.1, r.2 ++ r'.2.1, r'.2.2) := rfl

theorem syncFleetList_skip_404 (listSims : String → String → Except ListErr (List KoreSim))
    (account : SyncAccount) (f : FleetRow) (e : ListErr)
    (hl : listSims account.clientId f.externalRef = .error e)
    (h404 : isKore404 e = true) :
    ∀ (pre post : List FleetRow),
      syncFleetList listSims account (pre ++ f :: post) =
        syncFleetList listSims account (pre ++ post) := by
  intro pre
  induction pre with
  | nil =>
    intro post
    simp only [List.nil_append]
    rw [syncFleetList_cons, syncFleet_skip listSims account f e hl h404]
    dsimp only
    simp
  | cons g pre ih =>
    intro post
    simp only [List.cons_append]
    rw [syncFleetList_cons, syncFleetList_cons]
    cases hg : syncFleet listSims account g with
    | error e' => rfl
    | ok r => rw [ih post]

theorem syncFleetList_non404 (listSims : String → String → Except ListErr (List KoreSim))
    (account : SyncAccount) (f : FleetRow) (fs : List FleetRow) (e : ListErr)
    (hl : listSims account.clientId f.externalRef = .error e)
    (h404 : isKore404 e = false) :
    syncFleetList listSims account (f :: fs) = ([], [], some e) := by
  rw [syncFleetList_cons, syncFleet_propagate listSims account f e hl h404]

theorem syncDevices_cons (decrypt : String → Except String String)
    (listSims : String → String → Except ListErr (List KoreSim))
    (ctx : AuthCtx) (ff : Option (List String)) (account : SyncAccount)
    (rest : List SyncAccount) :
    syncDevices decrypt listSims ctx ff (account :: rest) =
      (let sa := syncAccount decrypt listSims ctx ff account
       let sd := syncDevices decrypt listSims ctx ff rest
       (sa.1 ++ sd.1, sa.2 ++ sd.2)) := rfl

theorem syncDevices_account_error (decrypt : String → Except String String)
    (listSims : String → String → Except ListErr (List KoreSim))
    (ctx : AuthCtx) (ff : Option (List String)) (account : SyncAccount)
    (rest : List SyncAccount) (secret : String)
    (es : List SyncEntry) (us : List UpsertRec) (e : ListErr)
    (hde : decrypt account.clientSecretEncrypted = .ok secret)
    (hfl : syncFleetList listSims account (targetFleets ctx ff account) = (es, us, some e)) :
    syncDevices decrypt listSims ctx ff (account :: rest) =
      (es ++ [⟨account.id, none, none, some (listErrMessage e)⟩] ++
        (syncDevices decrypt listSims ctx ff rest).1,
       us ++ (syncDevices decrypt listSims ctx ff rest).2) := by
  have hsa : syncAccount decrypt listSims ctx ff account =
      (es ++ [⟨account.id, none, none, some (listErrMessage e)⟩], us) := by
    unfold syncAccount
    rw [hde]
    dsimp only
    rw [hfl]
  rw [syncDevices_cons, hsa]

theorem runCandidates_cons (fetch : String → Except Nat SimListResponse)
    (base fleetSid : String) (fuel : Nat) (c : String) (cs : List String)
    (sims : List KoreSim) :
    runCandidates fetch base fleetSid fuel (c :: cs) sims =
      match runPages fetch base fleetSid fuel (some c) [] sims false with
      | (sims', fetchedAny, ps, .completed) =>
        if fetchedAny then (.ok sims', ps)
        else
          let r := runCandidates fetch base fleetSid fuel cs sims'
          (r.1, ps ++ r.2)
      | (sims', _, ps, .threw status) =>
        if status == 404 || status == 400 then
          let r := runCandidates fetch base fleetSid fuel cs sims'
          (r.1, ps ++ r.2)
        else (.err status, ps)
      | (_, _, ps, .fuelOut) => (.fuelOut, ps) := rfl

theorem runCandidates_stop (fetch : String → Except Nat SimListResponse)
    (base fleetSid : String) (fuel : Nat) (c : String) (cs : List String)
    (sims sims' : List KoreSim) (ps : List String)
    (h : runPages fetch base fleetSid fuel (some c) [] sims false = (sims', true, ps, .completed)) :
    runCandidates fetch base fleetSid fuel (c :: cs) sims = (.ok sims', ps) := by
  rw [runCandidates_cons, h]
  rfl

theorem runCandidates_propagate (fetch : String → Except Nat SimListResponse)
    (base fleetSid : String) (fuel : Nat) (c : String) (cs : List String)
    (sims sims' : List KoreSim) (any' : Bool) (ps : List String) (s : Nat)
    (h : runPages fetch base fleetSid fuel (some c) [] sims false = (sims', any', ps, .threw s))
    (h4 : s ≠ 404) (h0 : s ≠ 400) :
    runCandidates fetch base fleetSid fuel (c :: cs) sims = (.err s, ps) := by
  rw [runCandidates_cons, h]
  simp [h4, h0]

theorem runCandidates_advance (fetch : String → Except Nat SimListResponse)
    (base fleetSid : String) (fuel : Nat) (c : String) (cs : List String)
    (sims sims' : List KoreSim) (any' : Bool) (ps : List String) (s : Nat)
    (h : runPages fetch base fleetSid fuel (some c) [] sims false = (sims', any', ps, .threw s))
    (hs : s = 404 ∨ s = 400) :
    runCandidates fetch base fleetSid fuel (c :: cs) sims =
      ((runCandidates fetch base fleetSid fuel cs sims').1,
       ps ++ (runCandidates fetch base fleetSid fuel cs sims').2) := by
  rw [runCandidates_cons, h]
  rcases hs with hs | hs <;> subst hs <;> rfl

theorem runPages_paths_fresh (fetch : String → Except Nat SimListResponse)
    (base fleetSid : String) :
    ∀ (fuel : Nat) (np : Option String) (visited : List String)
      (sims : List KoreSim) (any : Bool),
      ((runPages fetch base fleetSid fuel np visited sims any).2.2.1).Nodup ∧
      ∀ p ∈ (runPages fetch base fleetSid fuel np visited sims any).2.2.1, p ∉ visited := by
  intro fuel
  induction fuel with
  | zero =>
    intro np visited sims any
    cases np with
    | none => simp [runPages]
    | some p =>
      by_cases h1 : p = ""
      · simp [runPages, h1]
      · by_cases h2 : p ∈ visited
        · simp [runPages, h1, h2]
        · simp [runPages, h1, h2]
  | succ fuel ih =>
    intro np visited sims any
    cases np with
    | none => simp [runPages]
    | some p =>
      by_cases h1 : p = ""
      · simp [runPages, h1]
      · have hb1 : (p == "") = false := by simp [h1]
        by_cases h2 : p ∈ visited
        · simp [runPages, h1, h2]
        · have hb2 : (visited.contains p) = false := by simp [h2]
          have hpv : p ∉ visited := h2
          cases hf : fetch p with
          | error s =>
            simp only [runPages, hb1, hb2, hf, Bool.false_eq_true, if_false]
            constructor
            · simp
            · intro q hq
              simp only [List.mem_singleton] at hq
              subst hq
              exact hpv
          | ok resp =>
            simp only [runPages, hb1, hb2, hf, Bool.false_eq_true, if_false]
            constructor
            · rw [List.nodup_cons]
              constructor
              · intro hmem
                have := (ih _ _ _ _).2 p hmem
                simp at this
              · exact (ih _ _ _ _).1
            · intro q hq
              rcases List.mem_cons.mp hq with hq | hq
              · subst hq
                exact hpv
              · have := (ih _ _ _ _).2 q hq
                intro hv
                exact this (by simp [hv])


/-! ## Claim theorems -/

/-- C1 counterexample: a caller whose only grant on account A is an
account-wide scope with canRead and canWrite is denied by
hasReadAccess/hasWriteAccess when they are called with a fleet id, even
though the dispatcher's per-device check grants the same caller on the same
fleet. -/
theorem C1_cex :
    hasReadAccess [⟨"A", none, true, true, true⟩] "A" (some "F1") = false ∧
    hasWriteAccess [⟨"A", none, true, true, true⟩] "A" (some "F1") = false ∧
    dispatchScopeCheck [⟨"A", none, true, true, true⟩] "A" true "F1" = true ∧
    dispatchScopeCheck [⟨"A", none, true, true, true⟩] "A" false "F1" = true := by
  decide

/-- C1 (amended): for a caller whose only grant on account A is an
account-wide scope, the dispatcher's per-device check grants exactly the
scope's permission on every fleet, and the helpers grant exactly the
scope's permission when called without a fleet id; but when called with a
fleet id the helpers deny such a caller outright. -/
theorem C1_account_wide_scope (scopes : List Scope) (a f : String) (s : Scope)
    (hm : mappedScopes scopes a = [s]) (hfl : s.fleetId = none) (hf : f ≠ "") :
    (dispatchScopeCheck scopes a true f = s.canWrite ∧
     dispatchScopeCheck scopes a false f = s.canRead) ∧
    (hasReadAccess scopes a none = s.canRead ∧
     hasWriteAccess scopes a none = s.canWrite) ∧
    (hasReadAccess scopes a (some f) = false ∧
     hasWriteAccess scopes a (some f) = false) := by
  refine ⟨⟨?_, ?_⟩, ⟨?_, ?_⟩, ?_, ?_⟩
  · unfold dispatchScopeCheck
    rw [hm]
    simp [hfl]
  · unfold dispatchScopeCheck
    rw [hm]
    simp [hfl]
  · rw [hasReadAccess_eq_mapped, hm]
    simp [optTruthy]
  · rw [hasWriteAccess_eq_mapped, hm]
    simp [optTruthy]
  · rw [hasReadAccess_eq_mapped, hm]
    simp [optTruthy, hfl, hf]
  · rw [hasWriteAccess_eq_mapped, hm]
    simp [optTruthy, hfl, hf]

/-- C1 witness: the amended statement at a concrete caller, account and
fleet. -/
theorem C1_account_wide_scope_witness :
    (dispatchScopeCheck [⟨"A", none, true, false, false⟩] "A" true "F1" = false ∧
     dispatchScopeCheck [⟨"A", none, true, false, false⟩] "A" false "F1" = true) ∧
    (hasReadAccess [⟨"A", none, true, false, false⟩] "A" none = true ∧
     hasWriteAccess [⟨"A", none, true, false, false⟩] "A" none = false) ∧
    (hasReadAccess [⟨"A", none, true, false, false⟩] "A" (some "F1") = false ∧
     hasWriteAccess [⟨"A", none, true, false, false⟩] "A" (some "F1") = false) :=
  C1_account_wide_scope [⟨"A", none, true, false, false⟩] "A" "F1"
    ⟨"A", none, true, false, false⟩ (by decide) rfl (by decide)

/-- C6: withRetry with retries = 3 given an operation failing on its first
two invocations and succeeding on the third returns the third value after
exactly 3 invocations; an always-failing operation is invoked exactly
retries + 1 times and the error of the final invocation is rethrown. -/
theorem C6_withRetry :
    (∀ (E A : Type) (f : Nat → Except E A) (e0 e1 : E) (v : A),
        f 0 = .error e0 → f 1 = .error e1 → f 2 = .ok v →
        withRetry f 3 = (.ok v, 3)) ∧
    (∀ (E A : Type) (f : Nat → Except E A) (errs : Nat → E) (retries : Nat),
        (∀ n, f n = .error (errs n)) →
        withRetry f retries = (.error (errs retries), retries + 1)) := by
  constructor
  · intro E A f e0 e1 v h0 h1 h2
    simp [withRetry, withRetryGo, h0, h1, h2]
  · intro E A f errs retries hf
    exact withRetryGo_allFail f errs hf retries retries 0 rfl (by omega)

/-- C6 witness: a concrete operation failing twice then succeeding, and a
concrete always-failing operation with retries = 3 (4 invocations). -/
theorem C6_withRetry_witness :
    withRetry (fun n => if n < 2 then (Except.error "boom" : Except String Nat)
      else Except.ok 42) 3 = (Except.ok 42, 3) ∧
    withRetry (fun _ => (Except.error "down" : Except String Nat)) 3 =
      (Except.error "down", 4) :=
  ⟨C6_withRetry.1 String Nat _ "boom" "boom" 42 rfl rfl rfl,
   C6_withRetry.2 String Nat _ (fun _ => "down") 3 fun _ => rfl⟩

/-- C7: with limit 2 and a 1000 ms window, three calls inside one window
succeed, succeed, throw; a fourth call at or after the window's resetAt
succeeds and starts a fresh window with limit - 1 tokens.  In general a
call on an active window with a nonnegative token count throws exactly
when the tokens are at zero and otherwise decrements them. -/
theorem C7_fixed_window :
    (∀ (store : RateStore) (k : String) (t0 t1 t2 t3 : Int),
      storeGet store k = none →
      t0 ≤ t1 → t1 ≤ t2 → t2 < t0 + 1000 → t0 + 1000 ≤ t3 →
      ∃ s1 s2 s3,
        enforceRateLimit store k 2 1000 t0 = .ok s1 ∧
        enforceRateLimit s1 k 2 1000 t1 = .ok s2 ∧
        enforceRateLimit s2 k 2 1000 t2 = .error "Rate limit exceeded" ∧
        enforceRateLimit s2 k 2 1000 t3 = .ok s3 ∧
        storeGet s3 k = some ⟨1, t3 + 1000⟩) ∧
    (∀ (store : RateStore) (k : String) (limit windowMs now : Int) (b : Bucket),
      storeGet store k = some b → now < b.resetAt → 0 ≤ b.tokens →
      (b.tokens = 0 →
        enforceRateLimit store k limit windowMs now = .error "Rate limit exceeded") ∧
      (b.tokens ≠ 0 →
        enforceRateLimit store k limit windowMs now =
          .ok (storeSet store k ⟨b.tokens - 1, b.resetAt⟩))) := by
  constructor
  · intro store k t0 t1 t2 t3 h0 h01 h12 h2w h3w
    refine ⟨storeSet store k ⟨1, t0 + 1000⟩,
            storeSet (storeSet store k ⟨1, t0 + 1000⟩) k ⟨0, t0 + 1000⟩,
            storeSet (storeSet (storeSet store k ⟨1, t0 + 1000⟩) k ⟨0, t0 + 1000⟩) k
              ⟨1, t3 + 1000⟩,
            ?_, ?_, ?_, ?_, ?_⟩
    · unfold enforceRateLimit
      rw [h0]
      norm_num
    · unfold enforceRateLimit
      rw [storeGet_storeSet_self]
      dsimp only
      rw [if_neg (by omega), if_neg (by norm_num)]
      norm_num
    · unfold enforceRateLimit
      rw [storeGet_storeSet_self]
      dsimp only
      rw [if_neg (by omega)]
      norm_num
    · unfold enforceRateLimit
      rw [storeGet_storeSet_self]
      dsimp only
      rw [if_pos (by omega)]
      norm_num
    · exact storeGet_storeSet_self _ _ _
  · intro store k limit windowMs now b hb hw hnn
    constructor
    · intro hz
      unfold enforceRateLimit
      rw [hb]
      dsimp only
      rw [if_neg (by omega), if_pos (by omega)]
    · intro hz
      unfold enforceRateLimit
      rw [hb]
      dsimp only
      rw [if_neg (by omega), if_neg (by omega)]

/-- C7 witness: the window scenario at concrete times 0, 1, 2, 1000 on an
empty store, and the active-window characterization on a concrete
exhausted bucket. -/
theorem C7_fixed_window_witness :
    (∃ s1 s2 s3,
      enforceRateLimit [] "k" 2 1000 0 = .ok s1 ∧
      enforceRateLimit s1 "k" 2 1000 1 = .ok s2 ∧
      enforceRateLimit s2 "k" 2 1000 2 = .error "Rate limit exceeded" ∧
      enforceRateLimit s2 "k" 2 1000 1000 = .ok s3 ∧
      storeGet s3 "k" = some ⟨1, 1000 + 1000⟩) ∧
    (((0 : Int) = 0 →
        enforceRateLimit [("k", ⟨0, 5⟩)] "k" 2 1000 1 = .error "Rate limit exceeded") ∧
     ((0 : Int) ≠ 0 →
        enforceRateLimit [("k", ⟨0, 5⟩)] "k" 2 1000 1 =
          .ok (storeSet [("k", ⟨0, 5⟩)] "k" ⟨0 - 1, 5⟩))) :=
  ⟨C7_fixed_window.1 [] "k" 0 1 2 1000 rfl (by norm_num) (by norm_num) (by norm_num)
      (by norm_num),
   C7_fixed_window.2 [("k", ⟨0, 5⟩)] "k" 2 1000 1 ⟨0, 5⟩ rfl (by norm_num) (by norm_num)⟩

/-- C9: the call that starts a new window (no bucket for the key, or the
prior window's resetAt has passed) never throws, for every limit value
including zero and negative ones; the new bucket holds limit - 1 tokens. -/
theorem C9_fresh_window_never_throws (store : RateStore) (k : String)
    (limit windowMs now : Int)
    (h : storeGet store k = none ∨ ∃ b, storeGet store k = some b ∧ b.resetAt ≤ now) :
    enforceRateLimit store k limit windowMs now =
      .ok (storeSet store k ⟨limit - 1, now + windowMs⟩) := by
  unfold enforceRateLimit
  rcases h with h | ⟨b, hb, hr⟩
  · rw [h]
  · rw [hb]
    dsimp only
    rw [if_pos hr]

/-- C9 witness: limit 0 on an empty store succeeds (tokens start at -1). -/
theorem C9_fresh_window_witness :
    enforceRateLimit [] "k" 0 1000 7 = .ok (storeSet [] "k" ⟨0 - 1, 7 + 1000⟩) :=
  C9_fresh_window_never_throws [] "k" 0 1000 7 (Or.inl rfl)

/-- C2 counterexample: a two-group batch that passed validation and the
rate-limit gate, whose first group's account secret fails decryption:
the whole dispatch throws and returns no results list at all, although the
claim demands 2 result entries (one error entry for the unresolved first
group, one entry for the second group's resolved device); the second group
is aborted by the first group's failure. -/
theorem C2_cex :
    dispatchTargets c2db ⟨"u1", true, []⟩ c2decrypt okSend "info" none c2targets =
      .error "Encrypted payload is malformed" ∧
    (c2targets.map (expectedEntries c2db c2targets)).sum = 2 :=
  ⟨rfl, rfl⟩

/-- C2 (amended): provided every targeted account's stored client secret
decrypts successfully, the dispatch loop returns a results list with
exactly one entry per resolved device plus one error entry per group that
resolves none (unknown account, no identifiers, or no matching sims), and
no group or device failure aborts the rest; without that proviso a
decryption failure aborts the entire batch. -/
theorem C2_result_count (db : Db) (ctx : AuthCtx)
    (decrypt : String → Except String String) (send : String → String → Except String Unit)
    (command : String) (text : Option String) (targets : List Target)
    (hd : ∀ t ∈ targets, ∀ a, accountMapGet db targets t.accountId = some a →
      ∃ s, decrypt a.clientSecretEncrypted = .ok s) :
    ∃ rs sent, dispatchTargets db ctx decrypt send command text targets = .ok (rs, sent) ∧
      rs.length = (targets.map (expectedEntries db targets)).sum :=
  dispatchGo_ok_length db ctx decrypt send command text targets targets hd

/-- C2 witness: the amended statement at a concrete two-group batch whose
secrets all decrypt (one unresolved group, one group resolving one
device): 1 + 1 = 2 result entries. -/
theorem C2_result_count_witness :
    ∃ rs sent, dispatchTargets c2db ⟨"u1", true, []⟩ okDecrypt okSend "info" none c2targets =
      .ok (rs, sent) ∧
      rs.length = (c2targets.map (expectedEntries c2db c2targets)).sum :=
  C2_result_count c2db ⟨"u1", true, []⟩ okDecrypt okSend "info" none c2targets
    fun _ _ _ _ => ⟨"secret", rfl⟩

/-- C3: a non-owner whose only scope for the device's account is a
fleet-scoped grant on the device's fleet with canWrite = false and
canRead = true gets a single forbidden result (and no provider send) for
every write-classified catalog command, and a single queued result (with
one provider send) for every read-classified catalog command whose
submission succeeds. -/
theorem C3_fleet_read_only_grant (db : Db) (ctx : AuthCtx)
    (decrypt : String → Except String String) (send : String → String → Except String Unit)
    (text : Option String) (account : AccountRow) (sim : SimRow) (t : Target)
    (s : Scope) (secret : String)
    (ho : ctx.isOwner = false)
    (hsc : mappedScopes ctx.scopes account.id = [s])
    (hsf : s.fleetId = some sim.fleetId) (hw : s.canWrite = false) (hr : s.canRead = true)
    (ha : accountMapGet db [t] t.accountId = some account)
    (hde : decrypt account.clientSecretEncrypted = .ok secret)
    (hres : resolveSims db account.id t = [sim]) :
    (∀ cmd, isWriteCommand cmd = true →
      dispatchTargets db ctx decrypt send cmd text [t] =
        .ok ([⟨account.id, account.label, sim.simSid, sim.id, sim.iccid, "forbidden",
              "Write scope missing in Account " ++ account.label, none, none⟩], [])) ∧
    (∀ cmd, isReadCommand cmd = true → send cmd sim.simSid = .ok () →
      dispatchTargets db ctx decrypt send cmd text [t] =
        .ok ([⟨account.id, account.label, sim.simSid, sim.id, sim.iccid, "queued", "",
              some cmd, some cmd⟩], [(cmd, sim.simSid)])) := by
  have hip : targetIdentifiersPresent t = true :=
    identifiersPresent_of_match t sim (sim_mem_of_resolve db account.id t sim hres)
  have hne : (resolveSims db account.id t).isEmpty = false := by
    rw [hres]
    rfl
  constructor
  · intro cmd hcw
    have hcheck : dispatchScopeCheck ctx.scopes account.id (isWriteCommand cmd) sim.fleetId
        = false := by
      unfold dispatchScopeCheck
      rw [hsc, hcw]
      simp [hsf, hw]
    unfold dispatchTargets dispatchGo
    rw [dispatchGroup_resolved db ctx decrypt send cmd text [t] t account secret ha hde hip hne]
    rw [hres]
    simp only [List.map_cons, List.map_nil, List.filterMap_cons, List.filterMap_nil]
    rw [processSim_forbidden ctx send account (isWriteCommand cmd)
      (commandToSend cmd text) (commandToSend cmd text) sim ho hcheck]
    rfl
  · intro cmd hcr hsend
    have hnw : isWriteCommand cmd = false := read_not_write cmd hcr
    have hcts : commandToSend cmd text = cmd := by
      unfold commandToSend
      rw [read_not_custom cmd hcr]
      rfl
    have hcheck : dispatchScopeCheck ctx.scopes account.id (isWriteCommand cmd) sim.fleetId
        = true := by
      unfold dispatchScopeCheck
      rw [hsc, hnw]
      simp [hsf, hr]
    unfold dispatchTargets dispatchGo
    rw [dispatchGroup_resolved db ctx decrypt send cmd text [t] t account secret ha hde hip hne]
    rw [hres]
    simp only [List.map_cons, List.map_nil, List.filterMap_cons, List.filterMap_nil]
    rw [hcts]
    rw [processSim_queued ctx send account (isWriteCommand cmd) cmd cmd sim (Or.inr hcheck) hsend]
    rfl

/-- C3 witness: the concrete caller of the C3 fixture dispatching "reset"
(write-classified, forbidden, no send) and "info" (read-classified,
queued, one send). -/
theorem C3_fleet_read_only_grant_witness :
    dispatchTargets c3db c3ctx okDecrypt okSend "reset" none [c3t] =
      .ok ([⟨"A1", "Acme", "SS1", "s1", "8902", "forbidden",
            "Write scope missing in Account " ++ "Acme", none, none⟩], []) ∧
    dispatchTargets c3db c3ctx okDecrypt okSend "info" none [c3t] =
      .ok ([⟨"A1", "Acme", "SS1", "s1", "8902", "queued", "",
            some "info", some "info"⟩], [("info", "SS1")]) :=
  ⟨(C3_fleet_read_only_grant c3db c3ctx okDecrypt okSend none c3acct c3sim c3t c3scope
      "secret" rfl rfl rfl rfl rfl rfl rfl rfl).1 "reset" rfl,
   (C3_fleet_read_only_grant c3db c3ctx okDecrypt okSend none c3acct c3sim c3t c3scope
      "secret" rfl rfl rfl rfl rfl rfl rfl rfl).2 "info" rfl rfl⟩

/-- C4: the code at the failing input.  When the token fetch fails with a
transport-level rejection (after the retry budget), the error propagates
but the in-flight marker is NOT removed: the state keeps the failed entry,
and a subsequent call for the same tenant returns the same stale failure
without issuing a fresh request (third component false).  Only the non-2xx
HTTP response path clears the marker, as the last conjunct shows. -/
theorem C4_rejection_leaves_inflight :
    (getAccessToken ⟨none, none⟩ 0 (.rejected "fetch failed") =
      (.error (.transport "fetch failed"),
       ⟨none, some (.error (.transport "fetch failed"))⟩, true)) ∧
    (getAccessToken ⟨none, some (.error (.transport "fetch failed"))⟩ 5 (.success "tok" none) =
      (.error (.transport "fetch failed"),
       ⟨none, some (.error (.transport "fetch failed"))⟩, false)) ∧
    (getAccessToken ⟨none, none⟩ 0 (.httpErr 401) =
      (.error (.http 401), ⟨none, none⟩, true)) :=
  ⟨rfl, rfl, rfl⟩

/-- C5: the endpoint-fallback behaviour of listSimsFromKore.  First, the
concrete scenario: four candidates answering 404 then one page of three
devices on the fifth yields exactly those three devices with no request to
the sixth candidate.  In general: a page error other than 404/400
propagates immediately; a candidate that completes its pagination having
yielded at least one device stops the loop; a candidate ending in 404/400
advances to the next one (keeping accumulated sims); and within one
candidate no pagination URL is ever requested twice. -/
theorem C5_listSims_endpoint_fallback :
    (listSimsFromKore c5fetch "https://api" "FL1" 10 =
      (.ok [koreSim1, koreSim2, koreSim3],
       [ "/Fleets/FL1/Sims?PageSize=500"
       , "/Sims?FleetSid=FL1&PageSize=500"
       , "/Sims?Fleet=FL1&PageSize=500"
       , "/fleets/FL1/sims?PageSize=500"
       , "/sims?FleetSid=FL1&PageSize=500" ])) ∧
    (∀ (fetch : String → Except Nat SimListResponse) (base fleetSid : String)
       (fuel : Nat) (c : String) (cs : List String) (sims sims' : List KoreSim)
       (any' : Bool) (ps : List String) (s : Nat),
      runPages fetch base fleetSid fuel (some c) [] sims false = (sims', any', ps, .threw s) →
      s ≠ 404 → s ≠ 400 →
      runCandidates fetch base fleetSid fuel (c :: cs) sims = (.err s, ps)) ∧
    (∀ (fetch : String → Except Nat SimListResponse) (base fleetSid : String)
       (fuel : Nat) (c : String) (cs : List String) (sims sims' : List KoreSim)
       (ps : List String),
      runPages fetch base fleetSid fuel (some c) [] sims false = (sims', true, ps, .completed) →
      runCandidates fetch base fleetSid fuel (c :: cs) sims = (.ok sims', ps)) ∧
    (∀ (fetch : String → Except Nat SimListResponse) (base fleetSid : String)
       (fuel : Nat) (c : String) (cs : List String) (sims sims' : List KoreSim)
       (any' : Bool) (ps : List String) (s : Nat),
      runPages fetch base fleetSid fuel (some c) [] sims false = (sims', any', ps, .threw s) →
      s = 404 ∨ s = 400 →
      runCandidates fetch base fleetSid fuel (c :: cs) sims =
        ((runCandidates fetch base fleetSid fuel cs sims').1,
         ps ++ (runCandidates fetch base fleetSid fuel cs sims').2)) ∧
    (∀ (fetch : String → Except Nat SimListResponse) (base fleetSid : String)
       (fuel : Nat) (np : Option String) (visited : List String)
       (sims : List KoreSim) (any : Bool),
      ((runPages fetch base fleetSid fuel np visited sims any).2.2.1).Nodup ∧
      ∀ p ∈ (runPages fetch base fleetSid fuel np visited sims any).2.2.1, p ∉ visited) :=
  ⟨rfl,
   fun fetch base fleetSid fuel c cs sims sims' any' ps s h h4 h0 =>
     runCandidates_propagate fetch base fleetSid fuel c cs sims sims' any' ps s h h4 h0,
   fun fetch base fleetSid fuel c cs sims sims' ps h =>
     runCandidates_stop fetch base fleetSid fuel c cs sims sims' ps h,
   fun fetch base fleetSid fuel c cs sims sims' any' ps s h hs =>
     runCandidates_advance fetch base fleetSid fuel c cs sims sims' any' ps s h hs,
   fun fetch base fleetSid fuel np visited sims any =>
     runPages_paths_fresh fetch base fleetSid fuel np visited sims any⟩

/-- C5 witness: the general conjuncts instantiated on the C5 oracle: the
sixth candidate (500) propagates its error; the fifth candidate completes
with three devices and stops the loop; the first candidate (404) advances
to the rest. -/
theorem C5_listSims_endpoint_fallback_witness :
    runCandidates c5fetch "https://api" "FL1" 10 ["/sims?fleetSid=FL1&PageSize=500"] [] =
      (.err 500, ["/sims?fleetSid=FL1&PageSize=500"]) ∧
    runCandidates c5fetch "https://api" "FL1" 10
        ["/sims?FleetSid=FL1&PageSize=500", "/sims?fleetSid=FL1&PageSize=500"] [] =
      (.ok [koreSim1, koreSim2, koreSim3], ["/sims?FleetSid=FL1&PageSize=500"]) ∧
    runCandidates c5fetch "https://api" "FL1" 10 ["/Fleets/FL1/Sims?PageSize=500"] [] =
      ((runCandidates c5fetch "https://api" "FL1" 10 [] []).1,
       ["/Fleets/FL1/Sims?PageSize=500"] ++
         (runCandidates c5fetch "https://api" "FL1" 10 [] []).2) :=
  ⟨C5_listSims_endpoint_fallback.2.1 c5fetch "https://api" "FL1" 10
      "/sims?fleetSid=FL1&PageSize=500" [] [] [] false
      ["/sims?fleetSid=FL1&PageSize=500"] 500 rfl (by decide) (by decide),
   C5_listSims_endpoint_fallback.2.2.1 c5fetch "https://api" "FL1" 10
      "/sims?FleetSid=FL1&PageSize=500" ["/sims?fleetSid=FL1&PageSize=500"]
      [] [koreSim1, koreSim2, koreSim3] ["/sims?FleetSid=FL1&PageSize=500"] rfl,
   C5_listSims_endpoint_fallback.2.2.2.1 c5fetch "https://api" "FL1" 10
      "/Fleets/FL1/Sims?PageSize=500" [] [] [] false
      ["/Fleets/FL1/Sims?PageSize=500"] 404 rfl (Or.inl rfl)⟩

/-- C8: the device-sync fleet loop.  A fleet whose listing fails with a
KoreHttpError of status 404 is skipped: the loop's summary entries and
upserts equal those of the same fleet list without it, so the account's
sync is unaffected and the remaining fleets still run.  A listing error of
any other kind aborts that account's remaining fleets and surfaces as one
error summary entry for the account, while the accounts after it are
still processed. -/
theorem C8_fleet_404_skipped :
    (∀ (listSims : String → String → Except ListErr (List KoreSim))
       (account : SyncAccount) (f : FleetRow) (e : ListErr),
      listSims account.clientId f.externalRef = .error e → isKore404 e = true →
      ∀ (pre post : List FleetRow),
        syncFleetList listSims account (pre ++ f :: post) =
          syncFleetList listSims account (pre ++ post)) ∧
    (∀ (listSims : String → String → Except ListErr (List KoreSim))
       (account : SyncAccount) (f : FleetRow) (fs : List FleetRow) (e : ListErr),
      listSims account.clientId f.externalRef = .error e → isKore404 e = false →
      syncFleetList listSims account (f :: fs) = ([], [], some e)) ∧
    (∀ (decrypt : String → Except String String)
       (listSims : String → String → Except ListErr (List KoreSim))
       (ctx : AuthCtx) (ff : Option (List String)) (account : SyncAccount)
       (rest : List SyncAccount) (secret : String)
       (es : List SyncEntry) (us : List UpsertRec) (e : ListErr),
      decrypt account.clientSecretEncrypted = .ok secret →
      syncFleetList listSims account (targetFleets ctx ff account) = (es, us, some e) →
      syncDevices decrypt listSims ctx ff (account :: rest) =
        (es ++ [⟨account.id, none, none, some (listErrMessage e)⟩] ++
          (syncDevices decrypt listSims ctx ff rest).1,
         us ++ (syncDevices decrypt listSims ctx ff rest).2)) :=
  ⟨fun listSims account f e hl h404 pre post =>
     syncFleetList_skip_404 listSims account f e hl h404 pre post,
   fun listSims account f fs e hl h404 =>
     syncFleetList_non404 listSims account f fs e hl h404,
   fun decrypt listSims ctx ff account rest secret es us e hde hfl =>
     syncDevices_account_error decrypt listSims ctx ff account rest secret es us e hde hfl⟩

/-- C8 witness: on the C8 oracle, the fleet list with the 404 fleet in the
middle syncs identically to the list without it; the 500 fleet aborts its
account's fleet loop with the error; and the account whose only fleet
answers 500 yields one error summary entry while the next account still
syncs. -/
theorem C8_fleet_404_skipped_witness :
    syncFleetList c8list c8acct2 [c8fleetOk, c8fleetGone, c8fleetOk] =
      syncFleetList c8list c8acct2 [c8fleetOk, c8fleetOk] ∧
    syncFleetList c8list c8acct [c8fleetBad, c8fleetOk] =
      ([], [], some (.koreHttp 500 "server error")) ∧
    syncDevices okDecrypt c8list c8ctx none [c8acct, c8acct2] =
      ([] ++ [⟨"A1", none, none, some (listErrMessage (.koreHttp 500 "server error"))⟩] ++
        (syncDevices okDecrypt c8list c8ctx none [c8acct2]).1,
       [] ++ (syncDevices okDecrypt c8list c8ctx none [c8acct2]).2) :=
  ⟨C8_fleet_404_skipped.1 c8list c8acct2 c8fleetGone (.koreHttp 404 "not found") rfl rfl
      [c8fleetOk] [c8fleetOk],
   C8_fleet_404_skipped.2.1 c8list c8acct c8fleetBad [c8fleetOk]
      (.koreHttp 500 "server error") rfl rfl,
   C8_fleet_404_skipped.2.2 okDecrypt c8list c8ctx none c8acct [c8acct2] "secret"
      [] [] (.koreHttp 500 "server error") rfl
      (by
        have ht : targetFleets c8ctx none c8acct = [c8fleetBad] := rfl
        rw [ht]
        exact syncFleetList_non404 c8list c8acct c8fleetBad []
          (.koreHttp 500 "server error") rfl rfl)⟩

/-- C10: the device accumulator is shared across endpoint candidates and
never reset: with a first candidate yielding one device and then a 404 on
its second page, and a second candidate yielding the same device, the
returned list contains the same sid twice. -/
theorem C10_sims_accumulate_across_candidates :
    listSimsFromKore c10fetch "https://api" "FL1" 10 =
      (.ok [koreSimA, koreSimA],
       ["/Fleets/FL1/Sims?PageSize=500", "/page2", "/Sims?FleetSid=FL1&PageSize=500"]) ∧
    ¬ ([koreSimA, koreSimA].map KoreSim.sid).Nodup := by
  constructor
  · rfl
  · decide

end ClientDashboard
